import Mathlib

/-!
Verification development for the parking-session renewal scheduler
(`parking_scheduler.py`).

The script is a single-invocation job: it optionally shortens the requested
payment duration against a calendar of absence ("blackout") dates, invokes an
external payment command, and — when the command reports an already-active
session — extracts the session expiry from the command's log and decides
whether to retry immediately, sleep in-process and retry, delegate a future
job, or defer to the next scheduled cycle.

This file gives a shallow embedding of that logic.  Absolute time is modelled
as epoch seconds (`Int`); civil dates use the proleptic Gregorian calendar via
the standard days-from-civil conversion.  The `pytz` Europe/Paris timezone
database is modelled by the EU rules in force since 1996 (UTC+1 standard,
UTC+2 daylight time between 01:00 UTC on the last Sunday of March and
01:00 UTC on the last Sunday of October), which is what the database contains
for every modern date the scheduler can encounter.
-/

namespace ParkingScheduler

/-- Source constant `MAX_WAIT_SECONDS = 14400` (4 hours): longest in-process wait. -/
def MAX_WAIT_SECONDS : Int := 14400

/-- Source constant `MARGIN_SECONDS = 2700` (45 minutes): slack subtracted from the
dispatch instant of a delegated job. -/
def MARGIN_SECONDS : Int := 2700

/-- Source constant `SAFETY_GAP_SECONDS = 180` (3 minutes): delay added past expiry
before the retry. -/
def SAFETY_GAP_SECONDS : Int := 180

/-- Source constant `PARIS_END_PARKING_HOUR_LOCAL = 20`: paid parking in Paris ends
at 20:00 local time. -/
def PARIS_END_PARKING_HOUR_LOCAL : Int := 20

/-- Number of days from 1970-01-01 to the Gregorian civil date `y-m-d`
(Hinnant's days-from-civil algorithm, written with floor division, which for
the positive divisors used here coincides with Lean's `Int` division). -/
def daysFromCivil (y m d : Int) : Int :=
  let yAdj := if m ≤ 2 then y - 1 else y
  let era := yAdj / 400
  let yoe := yAdj - era * 400
  let mp := (m + 9) % 12
  let doy := (153 * mp + 2) / 5 + d - 1
  let doe := yoe * 365 + yoe / 4 - yoe / 100 + doy
  era * 146097 + doe - 719468

/-- Inverse of `daysFromCivil`: the Gregorian civil date `(y, m, d)` of epoch
day `z` (Hinnant's civil-from-days algorithm). -/
def civilFromDays (z0 : Int) : Int × Int × Int :=
  let z := z0 + 719468
  let era := z / 146097
  let doe := z - era * 146097
  let yoe := (doe - doe / 1460 + doe / 36524 - doe / 146096) / 365
  let y := yoe + era * 400
  let doy := doe - (365 * yoe + yoe / 4 - yoe / 100)
  let mp := (5 * doy + 2) / 153
  let d := doy - (153 * mp + 2) / 5 + 1
  let m := mp + (if mp < 10 then 3 else -9)
  (if m ≤ 2 then y + 1 else y, m, d)

/-- Calendar year of epoch day `z`. -/
def yearOfDay (z : Int) : Int := (civilFromDays z).1

/-- Day of month of the last Sunday of a 31-day month `m` of year `y`
(epoch day 0, 1970-01-01, was a Thursday, so Sunday-indexed weekday is
`(z + 4) % 7`).  Used for the European DST transition dates (March, October). -/
def lastSundayDay (y m : Int) : Int := 31 - (daysFromCivil y m 31 + 4) % 7

/-- UTC instant at which daylight-saving time starts in year `y` under EU rules:
01:00 UTC on the last Sunday of March. -/
def dstStartUtc (y : Int) : Int := daysFromCivil y 3 (lastSundayDay y 3) * 86400 + 3600

/-- UTC instant at which daylight-saving time ends in year `y` under EU rules:
01:00 UTC on the last Sunday of October. -/
def dstEndUtc (y : Int) : Int := daysFromCivil y 10 (lastSundayDay y 10) * 86400 + 3600

/-- Europe/Paris UTC offset, in seconds, at the UTC instant `t`
(models the `pytz` Europe/Paris database for modern dates: UTC+2 inside the
DST window, UTC+1 outside). -/
def paris_utc_offset (t : Int) : Int :=
  let y := yearOfDay (t / 86400)
  if dstStartUtc y ≤ t ∧ t < dstEndUtc y then 7200 else 3600

/-- Start of the DST window expressed in naive Paris local time: clocks jump
from 02:00 to 03:00 local, so local readings from 03:00 on the transition day
are daylight time. -/
def dstStartLocal (y : Int) : Int := daysFromCivil y 3 (lastSundayDay y 3) * 86400 + 10800

/-- End of the DST window expressed in naive Paris local time: clocks fall back
at 03:00 local to 02:00; the ambiguous readings 02:00-03:00 resolve to standard
time under pytz's localize with its default `is_dst=False`. -/
def dstEndLocal (y : Int) : Int := daysFromCivil y 10 (lastSundayDay y 10) * 86400 + 7200

/-- Europe/Paris UTC offset, in seconds, attached by `paris_tz.localize` to a
naive local reading `n` (epoch-style seconds of the naive civil time), with
pytz's default resolution of ambiguous and nonexistent readings to standard
time. -/
def paris_offset_of_naive (n : Int) : Int :=
  let y := yearOfDay (n / 86400)
  if dstStartLocal y ≤ n ∧ n < dstEndLocal y then 7200 else 3600

/-- Civil date of UTC instant `t` read in the Europe/Paris zone
(`today_utc.astimezone(paris_tz).date()`, line 36 of the source). -/
def parisCivilDate (t : Int) : Int × Int × Int :=
  civilFromDays ((t + paris_utc_offset t) / 86400)

/-- Epoch-style seconds of the naive civil time `y-m-d hourLocal:00:00`. -/
def paris_naive_epoch (y m d hourLocal : Int) : Int :=
  daysFromCivil y m d * 86400 + hourLocal * 3600

/-- `get_paris_end_of_parking_utc` (source lines 30-50): the UTC instant of
20:00 Paris local time on the civil date, in Paris, of the instant `t`.
Step 1 takes the Paris civil date of `t`; step 2 forms the naive local
datetime at 20:00:00 on that date; steps 3-4 localize it with the Paris
offset valid at that local reading and convert to UTC. -/
def get_paris_end_of_parking_utc (t : Int) : Int :=
  let p := parisCivilDate t
  let n := paris_naive_epoch p.1 p.2.1 p.2.2 PARIS_END_PARKING_HOUR_LOCAL
  n - paris_offset_of_naive n

/-- A non-DST-aware variant of the cutoff computation that uses one fixed
offset `off` both to pick the civil date and to convert 20:00 local back to
UTC.  Stated from the spec's words ("the naive non-DST-aware calculation");
it exists only to be compared against `get_paris_end_of_parking_utc`. -/
def cutoff_fixed_offset (off t : Int) : Int :=
  let p := civilFromDays ((t + off) / 86400)
  paris_naive_epoch p.1 p.2.1 p.2.2 PARIS_END_PARKING_HOUR_LOCAL - off

/-- `get_next_absence_date` (source lines 88-144).  The external Google-Sheets
source is modelled as `Option (List (Option Int))`: `none` when the source is
unavailable (variables not configured, worksheet missing, or any access
error — all of which make the Python function return `None`); each row is the
epoch instant of the parsed absence date at Paris midnight, or `none` for a
blank, header or malformed row, which the loop skips with a warning.
Rows at or after today's Paris midnight are kept and the earliest is
returned; an empty remainder yields `none`. -/
def get_next_absence_date (todayParisMidnight : Int)
    (source : Option (List (Option Int))) : Option Int :=
  match source with
  | none => none
  | some rows =>
    let future_absences :=
      (rows.filterMap id).filter (fun a => decide (todayParisMidnight ≤ a))
    future_absences.min?

/-- `days_until_absence_end` (source line 166): `int(time_until_absence / (24*3600))`,
Python's `int()` truncating toward zero, i.e. `Int.tdiv`. -/
def days_until_absence_end (now next : Int) : Int :=
  (next - now).tdiv 86400

/-- The payment duration after the absence adjustment (source lines 151-179):
`maxDays` when no upcoming absence exists; otherwise `none` models the
`sys.exit(0)` at line 171 when the whole-day count until the absence is
non-positive, and `min maxDays days` is the adjusted duration of line 176. -/
def adjusted_duration (maxDays now : Int) (nextAbsence : Option Int) : Option Int :=
  match nextAbsence with
  | none => some maxDays
  | some next =>
    let d := days_until_absence_end now next
    if d ≤ 0 then none else some (min maxDays d)

/-- The duration actually used for payment (source lines 151-194): the adjusted
duration, with the final guard of line 182 (`payment_duration_days <= 0` exits
before any payment attempt) applied.  `none` means the process exits with
status 0 without invoking the payment command. -/
def payment_plan (maxDays now : Int) (nextAbsence : Option Int) : Option Int :=
  match adjusted_duration maxDays now nextAbsence with
  | none => none
  | some dur => if dur ≤ 0 then none else some dur

/-- Result of handling the first payment attempt (source lines 199-214):
either the process exits with the given status, or it proceeds to the
expiry analysis. -/
inductive FirstAttemptStep where
  | exitWith (code : Int)
  | proceedToAnalysis
  deriving DecidableEq, Repr

/-- Handling of the first payment attempt (source lines 207-214):
`returncode` is the payment command's exit code and `alreadyRegistered`
whether the "Already registered" marker occurs in its combined output.
A non-zero code without the marker is fatal with that same code; no marker
with code 0 is success (exit 0); the marker present proceeds to analysis. -/
def handle_first_attempt (returncode : Int) (alreadyRegistered : Bool) : FirstAttemptStep :=
  if returncode ≠ 0 ∧ alreadyRegistered = false then .exitWith returncode
  else if alreadyRegistered = false then .exitWith 0
  else .proceedToAnalysis

/-- Exit status of the process after the second (retry) payment attempt
(source lines 304-309): 0 on success, otherwise the retry command's own
exit code. -/
def handle_retry (returncode : Int) : Int :=
  if returncode = 0 then 0 else returncode

/-- The six integer fields captured by the expiry regex
(`'expireTime': datetime.datetime(yyyy, m, d, h, mi, s)`, source line 222).
The pattern captures them as bare digit groups, so they are naturals. -/
structure DateParts where
  year : Nat
  month : Nat
  day : Nat
  hour : Nat
  minute : Nat
  second : Nat
  deriving DecidableEq, Repr

/-- Gregorian leap-year test, as used by Python's `datetime`. -/
def isLeap (y : Nat) : Bool := (y % 4 == 0 && y % 100 != 0) || (y % 400 == 0)

/-- Length of month `m` of year `y`, as used by Python's `datetime`. -/
def daysInMonth (y m : Nat) : Nat :=
  if m = 2 then (if isLeap y then 29 else 28)
  else if m = 4 ∨ m = 6 ∨ m = 9 ∨ m = 11 then 30
  else 31

/-- Ranges accepted by Python's `datetime(year, month, day, hour, minute, second)`
constructor; out-of-range fields raise `ValueError` (source line 230 raises,
line 232 catches, line 234 exits with status 1). -/
def is_valid_datetime (p : DateParts) : Prop :=
  1 ≤ p.year ∧ p.year ≤ 9999 ∧ 1 ≤ p.month ∧ p.month ≤ 12 ∧
  1 ≤ p.day ∧ p.day ≤ daysInMonth p.year p.month ∧
  p.hour ≤ 23 ∧ p.minute ≤ 59 ∧ p.second ≤ 59

instance (p : DateParts) : Decidable (is_valid_datetime p) := by
  unfold is_valid_datetime; exact inferInstance

/-- Epoch seconds of the civil time `p` read directly as UTC — the meaning the
spec assigns to "that civil time tagged UTC". -/
def naive_civil_epoch (p : DateParts) : Int :=
  daysFromCivil p.year p.month p.day * 86400
    + (p.hour : Int) * 3600 + (p.minute : Int) * 60 + (p.second : Int)

/-- `datetime(*date_parts, tzinfo=timezone.utc).timestamp()` (source line 230):
the parsed fields are declared to be UTC, so the timestamp is the raw civil
epoch with no zone adjustment. -/
def expiry_time_utc_of (p : DateParts) : Int :=
  daysFromCivil p.year p.month p.day * 86400
    + (p.hour : Int) * 3600 + (p.minute : Int) * 60 + (p.second : Int)

/-- The alternative policy the spec's design notes describe (the other script
variant): read the parsed fields as Paris local civil time and localize them.
It exists only to be compared against `expiry_time_utc_of`. -/
def expiry_time_paris_localized (p : DateParts) : Int :=
  naive_civil_epoch p - paris_offset_of_naive (naive_civil_epoch p)

/-- Result of the expiry-analysis stage (source lines 219-234): either the
process exits with the given status, or analysis found the expiry instant. -/
inductive ExpiryAnalysis where
  | exitWith (code : Int)
  | expiryFound (t : Int)
  deriving DecidableEq, Repr

/-- The expiry-analysis stage (source lines 219-234), after the regex search:
`matched` is the captured digit groups when the pattern matched.  No match
logs a warning and exits 0 (line 226); a match whose fields Python's
`datetime` rejects raises, is caught, and exits 1 (line 234); a valid match
yields the expiry instant, interpreted as UTC. -/
def analyze_expiry (matched : Option DateParts) : ExpiryAnalysis :=
  match matched with
  | none => .exitWith 0
  | some p =>
    if is_valid_datetime p then .expiryFound (expiry_time_utc_of p)
    else .exitWith 1

/-- The four-way renewal decision (spec section 3). -/
inductive RenewalDecision where
  | RetryNow
  | SleepThenRetry (duration : Int)
  | DelegateToFutureJob (dispatch_instant : Int)
  | DeferToNextCycle
  deriving DecidableEq, Repr

/-- The renewal decision logic (source lines 236-289).
`wait_time_seconds = (expiry + safetyGap) - now` (line 237); non-positive
falls through to the immediate retry (lines 247-249); at most `maxWait`
sleeps exactly that long then retries (lines 251-254); otherwise the long
branch defers when `expiry > cutoff` (lines 263-265) and else delegates a
job at `expiry + safetyGap - margin` (line 268). -/
def renewal_decision (now expiry safetyGap maxWait margin cutoff : Int) :
    RenewalDecision :=
  let wait_time_seconds := expiry + safetyGap - now
  if wait_time_seconds ≤ 0 then .RetryNow
  else if wait_time_seconds ≤ maxWait then .SleepThenRetry wait_time_seconds
  else if expiry > cutoff then .DeferToNextCycle
  else .DelegateToFutureJob (expiry + safetyGap - margin)

/-! ## Claims about the renewal decision engine -/

/-- C1: with `remaining = (expiry + safetyGapSeconds) - now`, a non-positive
`remaining` decides `RetryNow` (immediate second attempt, no sleep), and
`0 < remaining ≤ maxWaitSeconds` — inclusive at the boundary — decides
`SleepThenRetry` with duration exactly `remaining`. -/
theorem renewal_decision_short_window
    (now expiry safetyGap maxWait margin cutoff : Int) :
    (expiry + safetyGap - now ≤ 0 →
      renewal_decision now expiry safetyGap maxWait margin cutoff =
        RenewalDecision.RetryNow) ∧
    (0 < expiry + safetyGap - now → expiry + safetyGap - now ≤ maxWait →
      renewal_decision now expiry safetyGap maxWait margin cutoff =
        RenewalDecision.SleepThenRetry (expiry + safetyGap - now)) := by
  simp only [renewal_decision]
  constructor
  · intro h
    rw [if_pos h]
  · intro h1 h2
    rw [if_neg (by omega), if_pos h2]

theorem renewal_decision_short_window_witness :
    renewal_decision 1000 0 180 14400 2700 0 = RenewalDecision.RetryNow ∧
    renewal_decision 0 1000 180 14400 2700 0 =
      RenewalDecision.SleepThenRetry 1180 := by
  constructor
  · exact (renewal_decision_short_window 1000 0 180 14400 2700 0).1 (by decide)
  · have h := (renewal_decision_short_window 0 1000 180 14400 2700 0).2
      (by decide) (by decide)
    norm_num at h
    exact h

/-- C2: when `remaining > maxWaitSeconds`, the engine defers to the next cycle
if `expiry > cutoff`, and otherwise — including exactly `expiry = cutoff` —
delegates a future job dispatched at `expiry + safetyGapSeconds - marginSeconds`. -/
theorem renewal_decision_long_window
    (now expiry safetyGap maxWait margin cutoff : Int)
    (hw : 0 ≤ maxWait) (h : maxWait < expiry + safetyGap - now) :
    (cutoff < expiry →
      renewal_decision now expiry safetyGap maxWait margin cutoff =
        RenewalDecision.DeferToNextCycle) ∧
    (expiry ≤ cutoff →
      renewal_decision now expiry safetyGap maxWait margin cutoff =
        RenewalDecision.DelegateToFutureJob (expiry + safetyGap - margin)) := by
  simp only [renewal_decision]
  constructor
  · intro h2
    rw [if_neg (by omega), if_neg (by omega), if_pos h2]
  · intro h2
    rw [if_neg (by omega), if_neg (by omega), if_neg (by omega)]

theorem renewal_decision_long_window_witness :
    renewal_decision 0 100000 180 14400 2700 50000 =
      RenewalDecision.DeferToNextCycle ∧
    renewal_decision 0 100000 180 14400 2700 100000 =
      RenewalDecision.DelegateToFutureJob 97480 := by
  constructor
  · exact (renewal_decision_long_window 0 100000 180 14400 2700 50000
      (by decide) (by decide)).1 (by decide)
  · have h := (renewal_decision_long_window 0 100000 180 14400 2700 100000
      (by decide) (by decide)).2 (by decide)
    norm_num at h
    exact h

/-- C8 counterexample: at `now = 2024-06-10T10:00:00Z`,
`expiry = 2024-06-10T10:30:00Z`, `safetyGap = 120`, `maxWait = 14400`,
the engine does NOT decide `SleepThenRetry` with duration 1770 — the
remaining time is `1800 + 120 = 1920` seconds, not 1770. -/
theorem scenario_sleep_retry_1770_false :
    renewal_decision (daysFromCivil 2024 6 10 * 86400 + 36000)
        (daysFromCivil 2024 6 10 * 86400 + 37800) 120 14400 MARGIN_SECONDS
        (get_paris_end_of_parking_utc (daysFromCivil 2024 6 10 * 86400 + 36000)) ≠
      RenewalDecision.SleepThenRetry 1770 := by
  decide

/-- C8 amended: at `now = 2024-06-10T10:00:00Z`, `expiry = 2024-06-10T10:30:00Z`,
`safetyGap = 120`, `maxWait = 14400`, the engine computes
`remaining = 1920` seconds and decides `SleepThenRetry` with duration 1920. -/
theorem scenario_sleep_retry_1920 :
    (daysFromCivil 2024 6 10 * 86400 + 37800) + 120 -
        (daysFromCivil 2024 6 10 * 86400 + 36000) = 1920 ∧
    renewal_decision (daysFromCivil 2024 6 10 * 86400 + 36000)
        (daysFromCivil 2024 6 10 * 86400 + 37800) 120 14400 MARGIN_SECONDS
        (get_paris_end_of_parking_utc (daysFromCivil 2024 6 10 * 86400 + 36000)) =
      RenewalDecision.SleepThenRetry 1920 := by
  constructor
  · decide
  · decide

/-- C10: whenever the engine, run with the source's configured constants,
decides `SleepThenRetry d`, the sleep duration `d` is strictly positive and
at most `MAX_WAIT_SECONDS = 14400` seconds, so `time.sleep` never receives a
negative argument and blocks for at most 4 hours. -/
theorem sleep_duration_bounded (now expiry cutoff d : Int)
    (h : renewal_decision now expiry SAFETY_GAP_SECONDS MAX_WAIT_SECONDS
        MARGIN_SECONDS cutoff = RenewalDecision.SleepThenRetry d) :
    0 < d ∧ d ≤ 14400 := by
  simp only [renewal_decision, SAFETY_GAP_SECONDS, MAX_WAIT_SECONDS,
    MARGIN_SECONDS] at h
  split_ifs at h with h1 h2 h3
  all_goals cases h
  all_goals omega

theorem sleep_duration_bounded_witness :
    0 < (1180 : Int) ∧ (1180 : Int) ≤ 14400 :=
  sleep_duration_bounded 0 1000 0 1180 (by decide)

/-! ## Claims about the coverage adjuster -/

/-- Python's truncating `int()` division by 86400 is non-positive exactly when
the floor division is. -/
lemma tdiv_86400_nonpos_iff (x : Int) : x.tdiv 86400 ≤ 0 ↔ x / 86400 ≤ 0 := by
  rcases le_or_lt 0 x with hx | hx
  · rw [Int.tdiv_eq_ediv hx (by norm_num)]
  · constructor
    · intro _
      omega
    · intro _
      have hneg : x.tdiv 86400 = -((-x).tdiv 86400) := by
        rw [Int.neg_tdiv, Int.neg_neg]
      rw [hneg, Int.tdiv_eq_ediv (by omega) (by norm_num)]
      omega

/-- When the floor division by 86400 is positive, Python's truncating `int()`
division agrees with it. -/
lemma tdiv_86400_of_pos (x : Int) (h : 0 < x / 86400) :
    x.tdiv 86400 = x / 86400 :=
  Int.tdiv_eq_ediv (by omega) (by norm_num)

/-- C3: when the blackout source yields at least one date on or after today's
Paris midnight and `next` is the earliest such instant, with
`daysUntilBlackout = floor((next - now) / 86400)`: a non-positive
`daysUntilBlackout` means no payment is attempted (the process exits before
invoking the payment command), and otherwise the adjusted duration is
`min maxDays daysUntilBlackout`. -/
theorem blackout_duration_adjustment
    (todayParisMidnight now maxDays next : Int) (rows : List (Option Int))
    (h : get_next_absence_date todayParisMidnight (some rows) = some next) :
    ((next - now) / 86400 ≤ 0 →
      payment_plan maxDays now
        (get_next_absence_date todayParisMidnight (some rows)) = none) ∧
    (0 < (next - now) / 86400 →
      adjusted_duration maxDays now
        (get_next_absence_date todayParisMidnight (some rows)) =
        some (min maxDays ((next - now) / 86400))) := by
  rw [h]
  constructor
  · intro hD
    have ht : (next - now).tdiv 86400 ≤ 0 := (tdiv_86400_nonpos_iff _).2 hD
    simp [payment_plan, adjusted_duration, days_until_absence_end, ht]
  · intro hD
    have ht : (next - now).tdiv 86400 = (next - now) / 86400 :=
      tdiv_86400_of_pos _ hD
    have hneg : ¬ ((next - now) / 86400 ≤ 0) := by omega
    simp [adjusted_duration, days_until_absence_end, ht, hneg]

theorem blackout_duration_adjustment_witness :
    payment_plan 6 0 (get_next_absence_date 0 (some [some 3600])) = none ∧
    adjusted_duration 6 (0 : Int) (get_next_absence_date 0 (some [some 259200])) =
      some 3 := by
  constructor
  · exact (blackout_duration_adjustment 0 0 6 3600 [some 3600] (by decide)).1
      (by decide)
  · have h := (blackout_duration_adjustment 0 0 6 259200 [some 259200]
      (by decide)).2 (by decide)
    norm_num at h
    exact h

/-- C4: when the blackout source is unavailable (`none`: not configured,
unreachable or worksheet missing — the source function returns `None` in each
case rather than raising) or yields no date on or after today's Paris
midnight, the next-absence lookup is `none` and the duration used for payment
is `maxDays` unchanged. -/
theorem blackout_source_fail_open
    (todayParisMidnight now maxDays : Int) (source : Option (List (Option Int)))
    (h : source = none ∨ ∃ rows, source = some rows ∧
      ((rows.filterMap id).filter fun a => decide (todayParisMidnight ≤ a)) = []) :
    get_next_absence_date todayParisMidnight source = none ∧
    adjusted_duration maxDays now
      (get_next_absence_date todayParisMidnight source) = some maxDays := by
  have hg : get_next_absence_date todayParisMidnight source = none := by
    rcases h with rfl | ⟨rows, rfl, hrows⟩
    · rfl
    · simp [get_next_absence_date, hrows]
  refine ⟨hg, ?_⟩
  rw [hg]
  rfl

theorem blackout_source_fail_open_witness :
    get_next_absence_date 0 none = none ∧
    adjusted_duration 6 (0 : Int) (get_next_absence_date 0 none) = some 6 :=
  blackout_source_fail_open 0 0 6 none (Or.inl rfl)

/-! ## Claims about the expiry extractor and the exit-code contract -/

/-- C5: with a session active, a log from which the expiry pattern does not
match makes the process exit with status 0 (a warning, not an error), while
a match whose numeric fields Python's `datetime` rejects makes it exit with
the non-zero status 1. -/
theorem expiry_extraction_error_handling (matched : Option DateParts) :
    (matched = none → analyze_expiry matched = ExpiryAnalysis.exitWith 0) ∧
    (∀ p, matched = some p → ¬ is_valid_datetime p →
      analyze_expiry matched = ExpiryAnalysis.exitWith 1) := by
  constructor
  · intro h
    subst h
    rfl
  · intro p h hv
    subst h
    simp [analyze_expiry, hv]

theorem expiry_extraction_error_handling_witness :
    analyze_expiry none = ExpiryAnalysis.exitWith 0 ∧
    analyze_expiry (some ⟨2024, 13, 1, 0, 0, 0⟩) = ExpiryAnalysis.exitWith 1 := by
  constructor
  · exact (expiry_extraction_error_handling none).1 rfl
  · exact (expiry_extraction_error_handling (some ⟨2024, 13, 1, 0, 0, 0⟩)).2
      ⟨2024, 13, 1, 0, 0, 0⟩ rfl (by decide)

/-- C6: exit code 0 without the "Already registered" marker exits 0 (success);
the marker present — whatever the exit code — proceeds to expiry analysis;
a non-zero code without the marker on the first attempt, and any non-zero
code on the retry, are fatal with the process exiting with the payment
command's own exit code. -/
theorem payment_command_exit_contract (rc rcRetry : Int) (alreadyRegistered : Bool) :
    (rc = 0 → alreadyRegistered = false →
      handle_first_attempt rc alreadyRegistered = FirstAttemptStep.exitWith 0) ∧
    (alreadyRegistered = true →
      handle_first_attempt rc alreadyRegistered =
        FirstAttemptStep.proceedToAnalysis) ∧
    (rc ≠ 0 → alreadyRegistered = false →
      handle_first_attempt rc alreadyRegistered = FirstAttemptStep.exitWith rc) ∧
    (rcRetry ≠ 0 → handle_retry rcRetry = rcRetry) := by
  refine ⟨?_, ?_, ?_, ?_⟩
  · intro h0 hm
    subst h0; subst hm
    simp [handle_first_attempt]
  · intro hm
    subst hm
    simp [handle_first_attempt]
  · intro h0 hm
    subst hm
    simp [handle_first_attempt, h0]
  · intro h
    simp [handle_retry, h]

theorem payment_command_exit_contract_witness :
    handle_first_attempt 0 false = FirstAttemptStep.exitWith 0 ∧
    handle_first_attempt 5 true = FirstAttemptStep.proceedToAnalysis ∧
    handle_first_attempt 5 false = FirstAttemptStep.exitWith 5 ∧
    handle_retry 7 = 7 := by
  refine ⟨?_, ?_, ?_, ?_⟩
  · exact (payment_command_exit_contract 0 0 false).1 rfl rfl
  · exact (payment_command_exit_contract 5 0 true).2.1 rfl
  · exact (payment_command_exit_contract 5 0 false).2.2.1 (by decide) rfl
  · exact (payment_command_exit_contract 0 7 false).2.2.2 (by decide)

/-- C9: a successfully extracted expiry is the parsed civil time read directly
as UTC (`tzinfo=timezone.utc`), with no Paris localization applied: on a
summer date the UTC reading differs from the Paris-localized reading of the
same fields by the 7200-second offset. -/
theorem expiry_parsed_as_utc :
    (∀ p : DateParts, is_valid_datetime p →
      analyze_expiry (some p) =
        ExpiryAnalysis.expiryFound (naive_civil_epoch p)) ∧
    expiry_time_utc_of ⟨2024, 6, 10, 12, 0, 0⟩ =
      expiry_time_paris_localized ⟨2024, 6, 10, 12, 0, 0⟩ + 7200 := by
  constructor
  · intro p hv
    simp [analyze_expiry, hv]
    rfl
  · decide

theorem expiry_parsed_as_utc_witness :
    analyze_expiry (some ⟨2024, 6, 10, 10, 30, 0⟩) =
      ExpiryAnalysis.expiryFound (naive_civil_epoch ⟨2024, 6, 10, 10, 30, 0⟩) :=
  expiry_parsed_as_utc.1 ⟨2024, 6, 10, 10, 30, 0⟩ (by decide)

/-! ## Claims about the end-of-coverage cutoff -/

/-- On any epoch day `E`, localizing the naive reading 20:00:00 with the offset
valid at that local reading and adding back the Paris offset valid at the
resulting UTC instant recovers the naive reading: the instant produced really
reads 20:00:00 local on day `E`, whichever side of a DST transition the day
lies on. -/
lemma paris_cutoff_local_reading (E : Int) :
    (E * 86400 + 72000 - paris_offset_of_naive (E * 86400 + 72000)) +
      paris_utc_offset
        (E * 86400 + 72000 - paris_offset_of_naive (E * 86400 + 72000)) =
    E * 86400 + 72000 := by
  have hdiv : (E * 86400 + 72000) / 86400 = E := by omega
  simp only [paris_offset_of_naive, paris_utc_offset, dstStartLocal, dstEndLocal,
    dstStartUtc, dstEndUtc, hdiv]
  split_ifs with h1 h2 h3
  · omega
  · rw [show (E * 86400 + 72000 - 7200) / 86400 = E from by omega] at h2
    omega
  · rw [show (E * 86400 + 72000 - 3600) / 86400 = E from by omega] at h3
    omega
  · omega

/-- C7: the cutoff is the UTC instant whose Europe/Paris local reading is
exactly 20:00:00 on the civil date, in Paris, of `now` — i.e. it is resolved
with that specific date's zone offset.  On the 2024 spring-forward date the
DST-aware cutoff is one hour (3600 s, the DST offset change) earlier than the
fixed-offset UTC+1 calculation, and on the 2024 fall-back date it is one hour
later than the fixed-offset UTC+2 calculation. -/
theorem paris_cutoff_dst_aware :
    (∀ t : Int,
      get_paris_end_of_parking_utc t +
          paris_utc_offset (get_paris_end_of_parking_utc t) =
        paris_naive_epoch (parisCivilDate t).1 (parisCivilDate t).2.1
          (parisCivilDate t).2.2 PARIS_END_PARKING_HOUR_LOCAL) ∧
    cutoff_fixed_offset 3600 (daysFromCivil 2024 3 31 * 86400 + 43200) -
        get_paris_end_of_parking_utc (daysFromCivil 2024 3 31 * 86400 + 43200) =
      3600 ∧
    get_paris_end_of_parking_utc (daysFromCivil 2024 10 27 * 86400 + 43200) -
        cutoff_fixed_offset 7200 (daysFromCivil 2024 10 27 * 86400 + 43200) =
      3600 := by
  refine ⟨?_, by decide, by decide⟩
  intro t
  have h := paris_cutoff_local_reading
    (daysFromCivil (parisCivilDate t).1 (parisCivilDate t).2.1 (parisCivilDate t).2.2)
  simpa [get_paris_end_of_parking_utc, paris_naive_epoch,
    PARIS_END_PARKING_HOUR_LOCAL] using h

end ParkingScheduler
